import Mathlib

/-!
Verification of the geolocation CSV import library.

The definitions below are a shallow embedding of the Go sources:
`csv.go` (the current `csvImporter` pipeline: `read`, `setUpSanitizer`,
`sanitize`, `load`) and `geo.go` (the earlier revision: `ImportCSV`,
`sanitizeCSV`, `validateIP`, `validateLat`, `validateLng`, `validateName`,
`validateCountryCode`, `normalizeName`).  Strings are Lean `String`s,
Go `int64` arithmetic is `Int`, parsed floats are exact rationals `ℚ`.
-/

namespace Geoolocation

/-! ## Word chunks: model of the regexp word boundary `\b`

`sqlPatternRegex` in both `csv.go:39` and `geo.go:42` has the shape
`(?i)\b(?:KW1|KW2|...)\b` where every keyword consists solely of word
characters (`[0-9A-Za-z_]` for the regexp class `\w`).  Such a regex
matches a string iff some maximal run of word characters in the string
equals one of the keywords case-insensitively: the occurrence itself is
all word characters, and the `\b` on each side forces the characters
adjacent to the occurrence (if any) to be non-word characters, which is
exactly maximality of the run. -/

/-- Word character of the regexp class `\w` = `[0-9A-Za-z_]`. -/
def wordChar (c : Char) : Bool := c.isAlphanum || c = '_'

/-- Splits a character list into its maximal runs of word characters,
dropping the non-word separators.  `acc` holds the current run reversed. -/
def chunksAux (acc : List Char) : List Char → List (List Char)
  | [] => if acc = [] then [] else [acc.reverse]
  | c :: cs =>
    if wordChar c then chunksAux (c :: acc) cs
    else if acc = [] then chunksAux [] cs
    else acc.reverse :: chunksAux [] cs

/-- The maximal word-character runs of a character list. -/
def wordChunks (l : List Char) : List (List Char) := chunksAux [] l

/-- The keyword alternatives of `sqlPatternRegex` in `csv.go:39`:
`(?i)\b(?:SELECT|INSERT|UPDATE|DELETE|UNION|OR|DROP|EXEC(UTE)?|ALTER|CREATE|TRUNCATE)\b`.
`EXEC(UTE)?` contributes the two alternatives EXEC and EXECUTE.
Note: this list has no AND entry. -/
def sqlKeywords : List (List Char) :=
  [String.toList "SELECT", String.toList "INSERT", String.toList "UPDATE",
   String.toList "DELETE", String.toList "UNION", String.toList "OR",
   String.toList "DROP", String.toList "EXEC", String.toList "EXECUTE",
   String.toList "ALTER", String.toList "CREATE", String.toList "TRUNCATE"]

/-- The keyword alternatives of `sqlPatternRegex` in the superseded
revision `geo.go:42`, which additionally lists AND. -/
def sqlKeywordsGeo : List (List Char) :=
  [String.toList "SELECT", String.toList "INSERT", String.toList "UPDATE",
   String.toList "DELETE", String.toList "UNION", String.toList "AND",
   String.toList "OR", String.toList "DROP", String.toList "EXEC",
   String.toList "EXECUTE", String.toList "ALTER", String.toList "CREATE",
   String.toList "TRUNCATE"]

/-- `sqlPatternRegex.MatchString` of `csv.go:39` (see the word-chunk
discussion above): some maximal word run equals a keyword up to case. -/
def sqlPatternMatch (s : String) : Bool :=
  (wordChunks s.toList).any fun w => sqlKeywords.contains (w.map Char.toUpper)

/-- `sqlPatternRegex.MatchString` of the superseded `geo.go:42`. -/
def sqlPatternMatchGeo (s : String) : Bool :=
  (wordChunks s.toList).any fun w => sqlKeywordsGeo.contains (w.map Char.toUpper)

/-- `countryCodeRegex.MatchString` with pattern `[A-Z]{2}` (`csv.go:38`,
`geo.go:41`): the string has two consecutive ASCII uppercase letters
(the pattern is unanchored). -/
def countryCodeMatch (s : String) : Bool := hasTwoUpper s.toList
where
  hasTwoUpper : List Char → Bool
    | a :: b :: rest => (a.isUpper && b.isUpper) || hasTwoUpper (b :: rest)
    | _ => false

/-! ## IPv4 literals

`geo.go:40` validates addresses with the anchored regex
`^(([0-9]|[1-9][0-9]|1[0-9]{2}|2[0-4][0-9]|25[0-5])\.){3}([0-9]|...)$`:
four dot-separated decimal fields, each 0–255 with no leading zeros.
`csv.go:182` uses `net.ParseIP`; for dotted-quad input Go ≥ 1.17
(go.mod requires 1.20) accepts exactly the same set.  The IPv6 branch of
`net.ParseIP` (strings containing a colon) is not modelled — no claim
or witness below involves an IPv6 literal; such strings are rejected
here because a colon is not a digit. -/

/-- Numeric value of a decimal digit character. -/
def digitVal (c : Char) : Nat := c.toNat - '0'.toNat

/-- Value of a decimal digit string (most significant first). -/
def digitsToNat (cs : List Char) : Nat := cs.foldl (fun a c => a * 10 + digitVal c) 0

/-- Splits a character list at a separator, keeping empty pieces. -/
def splitSep (sep : Char) : List Char → List (List Char)
  | [] => [[]]
  | c :: cs =>
    match splitSep sep cs with
    | [] => if c = sep then [[], []] else [[c]]
    | r :: rs => if c = sep then [] :: r :: rs else (c :: r) :: rs

/-- One dotted-quad field: one to three decimal digits, no leading zero
(unless the field is exactly "0"), value at most 255. -/
def ipv4FieldOk (f : List Char) : Bool :=
  f.all Char.isDigit && decide (1 ≤ f.length) && decide (f.length ≤ 3) &&
  (f.length == 1 || f.headD 'x' != '0') &&
  decide (digitsToNat f ≤ 255)

/-- Dotted-quad IPv4 literal: exactly four fields, each `ipv4FieldOk`. -/
def ipv4Ok (s : String) : Bool :=
  match splitSep '.' s.toList with
  | [a, b, c, d] => ipv4FieldOk a && ipv4FieldOk b && ipv4FieldOk c && ipv4FieldOk d
  | _ => false

/-! ## `strconv.ParseFloat(s, 64)`

Modelled with exact rationals.  Go's parser accepts, after an optional
sign: a decimal mantissa (digits, optionally with a fraction, at least
one digit overall) with optional `e`/`E` decimal exponent, or a
hexadecimal mantissa `0x`/`0X` prefixed with a mandatory `p`/`P` binary
exponent.  Not modelled: the special forms `inf`/`infinity`/`nan`
(their values always fail the latitude/longitude range checks, so the
validators' accept sets are unchanged), digit-separating underscores,
and the float64 overflow/underflow cutoffs (`ParseFloat` reports a
range error for such strings; every numeral in the claims is far from
those cutoffs). -/

/-- Hexadecimal digit. -/
def isHexDigit (c : Char) : Bool :=
  c.isDigit || ('a' ≤ c && c ≤ 'f') || ('A' ≤ c && c ≤ 'F')

/-- Numeric value of a hexadecimal digit character. -/
def hexDigitVal (c : Char) : Nat :=
  if c.isDigit then c.toNat - '0'.toNat
  else if 'a' ≤ c && c ≤ 'f' then c.toNat - 'a'.toNat + 10
  else c.toNat - 'A'.toNat + 10

/-- Value of a hexadecimal digit string (most significant first). -/
def hexDigitsToNat (cs : List Char) : Nat :=
  cs.foldl (fun a c => a * 16 + hexDigitVal c) 0

/-- Optional sign prefix; returns the sign and the rest. -/
def splitSign : List Char → Int × List Char
  | '+' :: r => (1, r)
  | '-' :: r => (-1, r)
  | r => (1, r)

/-- Decimal mantissa and optional decimal exponent, after the sign.
The parsed value is returned as an exact numerator/denominator pair
`(n, d)` representing `n / d`; the denominator is a positive power of
ten by construction. -/
def parseDecTail (sgn : Int) (cs : List Char) : Option (Int × Nat) :=
  let ip := cs.takeWhile Char.isDigit
  let r1 := cs.dropWhile Char.isDigit
  let fp : List Char :=
    match r1 with
    | '.' :: t => t.takeWhile Char.isDigit
    | _ => []
  let r2 : List Char :=
    match r1 with
    | '.' :: t => t.dropWhile Char.isDigit
    | _ => r1
  if ip = [] ∧ fp = [] then none
  else
    let num : Int := sgn * ((digitsToNat ip * 10 ^ fp.length + digitsToNat fp : Nat) : Int)
    match r2 with
    | [] => some (num, 10 ^ fp.length)
    | e :: t =>
      if e = 'e' ∨ e = 'E' then
        let ed := (splitSign t).2.takeWhile Char.isDigit
        let t2 := (splitSign t).2.dropWhile Char.isDigit
        if ed = [] ∨ t2 ≠ [] then none
        else if 0 ≤ (splitSign t).1 then
          some (num * (10 : Int) ^ digitsToNat ed, 10 ^ fp.length)
        else some (num, 10 ^ fp.length * 10 ^ digitsToNat ed)
      else none

/-- Hexadecimal mantissa with mandatory `p`/`P` binary exponent, after
the `0x` prefix; value as an exact `(n, d)` pair. -/
def parseHexTail (sgn : Int) (cs : List Char) : Option (Int × Nat) :=
  let ip := cs.takeWhile isHexDigit
  let r1 := cs.dropWhile isHexDigit
  let fp : List Char :=
    match r1 with
    | '.' :: t => t.takeWhile isHexDigit
    | _ => []
  let r2 : List Char :=
    match r1 with
    | '.' :: t => t.dropWhile isHexDigit
    | _ => r1
  if ip = [] ∧ fp = [] then none
  else
    let num : Int := sgn * ((hexDigitsToNat ip * 16 ^ fp.length + hexDigitsToNat fp : Nat) : Int)
    match r2 with
    | p :: t =>
      if p = 'p' ∨ p = 'P' then
        let ed := (splitSign t).2.takeWhile Char.isDigit
        let t2 := (splitSign t).2.dropWhile Char.isDigit
        if ed = [] ∨ t2 ≠ [] then none
        else if 0 ≤ (splitSign t).1 then
          some (num * (2 : Int) ^ digitsToNat ed, 16 ^ fp.length)
        else some (num, 16 ^ fp.length * 2 ^ digitsToNat ed)
      else none
    | [] => none

/-- `strconv.ParseFloat(s, 64)` as an exact rational value `n / d` (see
the section comment for the modelling caveats). -/
def parseFloat? (s : String) : Option (Int × Nat) :=
  match (splitSign s.toList).2 with
  | '0' :: x :: rest =>
    if x = 'x' ∨ x = 'X' then parseHexTail (splitSign s.toList).1 rest
    else parseDecTail (splitSign s.toList).1 (splitSign s.toList).2
  | _ => parseDecTail (splitSign s.toList).1 (splitSign s.toList).2

/-- Modelled from the spec: "must parse as a base-10 floating point
number" — the decimal-only reading of the float syntax, for comparison
with the code's `strconv.ParseFloat`, which also accepts hexadecimal
floating-point literals. -/
def specBase10Float? (s : String) : Option (Int × Nat) :=
  parseDecTail (splitSign s.toList).1 (splitSign s.toList).2

/-! ## `strconv.ParseInt(s, 10, 64)` -/

/-- Value of a nonempty all-digit string, `none` otherwise. -/
def decDigitsVal? (cs : List Char) : Option Nat :=
  if cs ≠ [] ∧ cs.all Char.isDigit then some (digitsToNat cs) else none

/-- `strconv.ParseInt(s, 10, 64)`: optional sign, nonempty decimal
digits, and the signed value must fit in a signed 64-bit integer
(Go's parser enforces the cutoff digit by digit; the accepted set is
an optional-sign decimal numeral whose value lies in
`[-2^63, 2^63 - 1]`). -/
def parseInt64? (s : String) : Option Int :=
  match decDigitsVal? (splitSign s.toList).2 with
  | none => none
  | some n =>
    let v : Int := (splitSign s.toList).1 * n
    if -(2 ^ 63) ≤ v ∧ v ≤ 2 ^ 63 - 1 then some v else none

/-- Modelled from the spec: "must parse as a base-10 integer (sign
optional); no range constraint enforced" — the unbounded reading, for
comparison with the code's `strconv.ParseInt(s, 10, 64)`. -/
def specBase10Int? (s : String) : Option Int :=
  match decDigitsVal? (splitSign s.toList).2 with
  | none => none
  | some n => some ((splitSign s.toList).1 * n)

/-! ## The record and `sanitize` (`csv.go:171-229`) -/

/-- `csvData` (`csv.go:171-179`): the seven string fields of one row. -/
structure CsvData where
  ipAddress : String
  countryCode : String
  country : String
  city : String
  latitude : String
  longitude : String
  mysteryValue : String
deriving DecidableEq, Repr

/-- The quote character `'`. -/
def quoteChar : Char := '\''

/-- `strings.Contains(s, "'")` (`csv.go:194` and `csv.go:202`). -/
def hasQuote (s : String) : Bool := s.toList.contains quoteChar

/-- `fmt.Sprintf("'%s'", s)` (`csv.go:195` and `csv.go:203`). -/
def squote (s : String) : String := String.mk (quoteChar :: s.toList ++ [quoteChar])

/-- The in-place country mutation of `csv.go:194-196`: wrap the country
in single quotes when it contains one. -/
def normCountry (d : CsvData) : CsvData :=
  if hasQuote d.country then { d with country := squote d.country } else d

/-- The in-place city mutation of `csv.go:202-204`. -/
def normCity (d : CsvData) : CsvData :=
  if hasQuote d.city then { d with city := squote d.city } else d

/-- `validateLat` (`geo.go:250-261`), identical to the inline latitude
check of `csv.go:206-213`: `strconv.ParseFloat(s, 64)` must succeed and
the value must satisfy `-90 <= f && f <= 90`.  With the parsed value as
the exact fraction `n / d` (`d > 0`), that range condition is
`-90 * d ≤ n ∧ n ≤ 90 * d`. -/
def validateLat (s : String) : Bool :=
  match parseFloat? s with
  | none => false
  | some (n, d) => decide ((-90) * (d : Int) ≤ n ∧ n ≤ 90 * (d : Int))

/-- `validateLng` (`geo.go:264-275`), identical to the inline longitude
check of `csv.go:215-222`: parse, then `-180 <= f && f <= 180`. -/
def validateLng (s : String) : Bool :=
  match parseFloat? s with
  | none => false
  | some (n, d) => decide ((-180) * (d : Int) ≤ n ∧ n ≤ 180 * (d : Int))

/-- `(*csvData).sanitize` (`csv.go:181-229`).  The Go method mutates the
record through a pointer and returns an error; here it returns the
error (`some reason`/`none`) together with the record as left by the
method.  The country is wrapped (`csv.go:194-196`) as soon as the
country text check has passed — before the city, latitude, longitude
and mystery-value checks — and likewise the city (`csv.go:202-204`)
before the numeric checks, so a later rejection keeps those earlier
mutations. -/
def sanitize (d : CsvData) : Option String × CsvData :=
  if ipv4Ok d.ipAddress = false then (some "invalid ip", d)
  else if countryCodeMatch d.countryCode = false then (some "invalid country code", d)
  else if sqlPatternMatch d.country = true then (some "invalid country", d)
  else if sqlPatternMatch d.city = true then (some "invalid city", normCountry d)
  else if validateLat d.latitude = false then (some "invalid latitude", normCity (normCountry d))
  else if validateLng d.longitude = false then (some "invalid longitude", normCity (normCountry d))
  else if (parseInt64? d.mysteryValue).isNone then (some "invalid mystery value", normCity (normCountry d))
  else (none, normCity (normCountry d))

/-- Modelled from the spec: the seven per-field checks "in fixed order —
address, country code, country text, city text, latitude, longitude,
auxiliary", each applied to the original record, as an ordered list of
rejection outcomes; used to compare against `sanitize`. -/
def specCheckOrder (d : CsvData) : List (Option String) :=
  [if ipv4Ok d.ipAddress then none else some "invalid ip",
   if countryCodeMatch d.countryCode then none else some "invalid country code",
   if sqlPatternMatch d.country then some "invalid country" else none,
   if sqlPatternMatch d.city then some "invalid city" else none,
   if validateLat d.latitude then none else some "invalid latitude",
   if validateLng d.longitude then none else some "invalid longitude",
   if (parseInt64? d.mysteryValue).isSome then none else some "invalid mystery value"]

/-- The first `some` in a list of optional rejection reasons. -/
def firstSome : List (Option String) → Option String
  | [] => none
  | some e :: _ => some e
  | none :: rest => firstSome rest

/-- The first failing check's reason, in the spec's fixed order. -/
def firstFailure (d : CsvData) : Option String := firstSome (specCheckOrder d)

/-! ## The reader (`csv.go:85-137`) -/

/-- One data line as delivered by `encoding/csv`'s `reader.Read`:
`none` is a read error (in particular a row whose field count differs
from the header's seven — `csv.go:118-121` logs it and continues),
`some d` a well-formed seven-field row. -/
abbrev RawRow := Option CsvData

/-- `csvHeader` (`csv.go:37`). -/
def csvHeader : List String :=
  ["ip_address", "country_code", "country", "city", "latitude", "longitude", "mystery_value"]

/-- Modelled from the spec: the header literal named by §6/§4.2,
`address, country_code, country, city, latitude, longitude, auxiliary_value`. -/
def specHeader : List String :=
  ["address", "country_code", "country", "city", "latitude", "longitude", "auxiliary_value"]

/-- The field-by-field loop of `csv.go:104-108`: every position of the
actual header equals the expected one. -/
def headerFieldsMatch (h : List String) : Bool :=
  (h.zip csvHeader).all fun p => p.1 == p.2

/-- Outcome of `(*csvImporter).read` (`csv.go:85-137`): the returned
total/error, and the rows published on the data channel. -/
structure ReadOutcome where
  result : Except String Int
  published : List CsvData
deriving Repr

/-- `(*csvImporter).read` (`csv.go:85-137`).  `header = none` models
`reader.Read` failing on the first line (empty file): error
`"error reading csv header"` (`csv.go:95-98`).  A header of the wrong
length or content is `"invalid csv header"` (`csv.go:100-108`); in both
cases nothing is published.  Otherwise every data line increments
`totalRows` (`csv.go:117`) — read errors included — and each
well-formed row is sent on the channel (`csv.go:133`). -/
def read : Option (List String) → List RawRow → ReadOutcome
  | none, _ => ⟨.error "error reading csv header", []⟩
  | some h, rows =>
    if h.length ≠ csvHeader.length then ⟨.error "invalid csv header", []⟩
    else if headerFieldsMatch h = false then ⟨.error "invalid csv header", []⟩
    else ⟨.ok (rows.length : Int), rows.filterMap id⟩

/-! ## `ImportCSV` result accounting (`geo.go:70-100`) -/

/-- `Result` (`geo.go:58-67`), without the wall-clock field. -/
structure ResultR where
  acceptedRows : Int
  discardedRows : Int
deriving Repr, DecidableEq

/-- The result assembly of `geo.go:93-97`: `acceptedRows` is the
loader's `insertedRows`, `discardedRows` is `totalRows - insertedRows`. -/
def mkImportResult (totalRows insertedRows : Int) : ResultR :=
  ⟨insertedRows, totalRows - insertedRows⟩

/-- `ImportCSV` (`geo.go:70-100`) for an import that reaches the result
assembly: the `.csv` extension gate, the reader (which yields the total
row count or a fatal error), and the loader's reported row count
(`insertedRows`, an input here: it comes from the database driver). -/
def importCSV (ext : String) (header : Option (List String)) (rows : List RawRow)
    (insertedRows : Int) : Except String ResultR :=
  if ext ≠ ".csv" then .error "invalid file extension"
  else
    match (read header rows).result with
    | .error e => .error e
    | .ok total => .ok (mkImportResult total insertedRows)

/-! ## The worker/channel structure of `sanitizeCSV` (`geo.go:102-216`)

`sanitizeCSV` makes `ch := make(chan []string, concurrency)`
(`geo.go:105`) and starts exactly `concurrency` receiving worker
goroutines (`geo.go:140-195`); the reader then performs one `ch <- record`
per data row (`geo.go:210`) and finally closes the channel.  A send on a
Go channel completes only by handing the value to a receiver or by
placing it in a free buffer slot, so with zero workers at most
`capacity` sends can ever complete — with `concurrency = 0` that is at
most zero sends, and the reader blocks forever on the first row. -/

/-- How many of `sends` sends can complete on a channel with the given
buffer capacity and number of (always-ready) receivers. -/
def completableSends (workers capacity sends : Nat) : Nat :=
  if workers = 0 then min sends capacity else sends

/-- The per-row acceptance test of the `sanitizeCSV` worker body
(`geo.go:143-193`): rows with fewer than six fields are skipped
(`geo.go:144-146`), then `validateIP`, `validateCountryCode`,
`validateName` on country and city, `validateLat`, `validateLng`, and —
in place of the mystery value (`//TODO` at `geo.go:182-186`) —
`validateIP(r[0])` a second time. -/
def acceptsGeoRow (r : List String) : Bool :=
  if r.length < 6 then false
  else
    ipv4Ok (r.getD 0 "") && countryCodeMatch (r.getD 1 "") &&
    !sqlPatternMatchGeo (r.getD 2 "") && !sqlPatternMatchGeo (r.getD 3 "") &&
    validateLat (r.getD 4 "") && validateLng (r.getD 5 "") &&
    ipv4Ok (r.getD 0 "")

/-- `sanitizeCSV` (`geo.go:102-216`) after a successful header check:
`some (totalRows, acceptedRows)` when every reader send can complete
(so the function returns), `none` when the reader blocks forever.
Which rows are accepted does not depend on which worker processes
them, so the counts are concurrency-independent whenever the function
returns. -/
def sanitizeCSVModel (rows : List (List String)) (concurrency : Nat) : Option (Nat × Nat) :=
  if completableSends concurrency concurrency rows.length = rows.length then
    some (rows.length, (rows.filter acceptsGeoRow).length)
  else none

/-! ## The staging goroutine of `setUpSanitizer` (`csv.go:42-83`) -/

/-- Events of the staging goroutine and of `load`. -/
inductive StageEvent where
  | workerExit
  | signalSend
  | writerFlush
  | fileClose
deriving DecidableEq, Repr

/-- The order of events in the goroutine of `setUpSanitizer`
(`csv.go:49-80`) with `n` workers: the goroutine registers
`defer file.Close()` (`csv.go:50`) and then `defer writer.Flush()`
(`csv.go:53`); its body waits for all `n` workers (`wg.Wait()`,
`csv.go:78`) and sends on the signal channel (`i.signal <- true`,
`csv.go:79`); only then does the goroutine return, running the
deferred calls in LIFO order: first `writer.Flush()`, then
`file.Close()`. -/
def setUpSanitizerTrace (n : Nat) : List StageEvent :=
  List.replicate n .workerExit ++ [.signalSend, .writerFlush, .fileClose]

/-! ## Helper lemmas -/

theorem wordChar_quote : wordChar quoteChar = false := by decide

theorem chunksAux_append_quote (l : List Char) :
    ∀ acc, chunksAux acc (l ++ [quoteChar]) = chunksAux acc l := by
  induction l with
  | nil =>
    intro acc
    by_cases h : acc = [] <;> simp [chunksAux, wordChar_quote, h]
  | cons c cs ih =>
    intro acc
    by_cases hw : wordChar c <;> by_cases h : acc = [] <;>
      simp [chunksAux, hw, h, ih]

theorem wordChunks_squote (s : String) :
    wordChunks (squote s).toList = wordChunks s.toList := by
  have h : (squote s).toList = quoteChar :: (s.toList ++ [quoteChar]) := rfl
  rw [h]
  show chunksAux [] (quoteChar :: (s.toList ++ [quoteChar])) = _
  rw [show chunksAux [] (quoteChar :: (s.toList ++ [quoteChar]))
        = chunksAux [] (s.toList ++ [quoteChar]) by
      simp [chunksAux, wordChar_quote]]
  exact chunksAux_append_quote s.toList []

theorem sqlPatternMatch_squote (s : String) :
    sqlPatternMatch (squote s) = sqlPatternMatch s := by
  unfold sqlPatternMatch
  rw [wordChunks_squote]

theorem normCountry_ipAddress (d : CsvData) : (normCountry d).ipAddress = d.ipAddress := by
  unfold normCountry; split <;> rfl

theorem normCountry_countryCode (d : CsvData) : (normCountry d).countryCode = d.countryCode := by
  unfold normCountry; split <;> rfl

theorem normCountry_city (d : CsvData) : (normCountry d).city = d.city := by
  unfold normCountry; split <;> rfl

theorem normCountry_latitude (d : CsvData) : (normCountry d).latitude = d.latitude := by
  unfold normCountry; split <;> rfl

theorem normCountry_longitude (d : CsvData) : (normCountry d).longitude = d.longitude := by
  unfold normCountry; split <;> rfl

theorem normCountry_mysteryValue (d : CsvData) : (normCountry d).mysteryValue = d.mysteryValue := by
  unfold normCountry; split <;> rfl

theorem normCity_ipAddress (d : CsvData) : (normCity d).ipAddress = d.ipAddress := by
  unfold normCity; split <;> rfl

theorem normCity_countryCode (d : CsvData) : (normCity d).countryCode = d.countryCode := by
  unfold normCity; split <;> rfl

theorem normCity_country (d : CsvData) : (normCity d).country = d.country := by
  unfold normCity; split <;> rfl

theorem normCity_latitude (d : CsvData) : (normCity d).latitude = d.latitude := by
  unfold normCity; split <;> rfl

theorem normCity_longitude (d : CsvData) : (normCity d).longitude = d.longitude := by
  unfold normCity; split <;> rfl

theorem normCity_mysteryValue (d : CsvData) : (normCity d).mysteryValue = d.mysteryValue := by
  unfold normCity; split <;> rfl

theorem zip_all_beq_iff :
    ∀ (a b : List String), a.length = b.length →
      (((a.zip b).all fun p => p.1 == p.2) = true ↔ a = b) := by
  intro a
  induction a with
  | nil =>
    intro b hb
    cases b with
    | nil => simp
    | cons x xs => simp at hb
  | cons x xs ih =>
    intro b hb
    cases b with
    | nil => simp at hb
    | cons y ys =>
      simp only [List.zip_cons_cons, List.all_cons, Bool.and_eq_true, beq_iff_eq,
        List.cons.injEq]
      rw [ih ys (by simpa using hb)]

theorem headerFieldsMatch_iff (hd : List String) (hl : hd.length = csvHeader.length) :
    headerFieldsMatch hd = true ↔ hd = csvHeader := by
  unfold headerFieldsMatch
  exact zip_all_beq_iff hd csvHeader hl

theorem normCountry_country_or (d : CsvData) :
    (normCountry d).country = d.country ∨ (normCountry d).country = squote d.country := by
  unfold normCountry; split
  · right; rfl
  · left; rfl

theorem normCity_city_or (d : CsvData) :
    (normCity d).city = d.city ∨ (normCity d).city = squote d.city := by
  unfold normCity; split
  · right; rfl
  · left; rfl

theorem sql_normCountry (d : CsvData) :
    sqlPatternMatch (normCountry d).country = sqlPatternMatch d.country := by
  unfold normCountry; split
  · exact sqlPatternMatch_squote d.country
  · rfl

theorem sql_normCity (d : CsvData) :
    sqlPatternMatch (normCity d).city = sqlPatternMatch d.city := by
  unfold normCity; split
  · exact sqlPatternMatch_squote d.city
  · rfl

theorem normCountry_of_not_quote (e : CsvData) (h : hasQuote e.country = false) :
    normCountry e = e := by
  unfold normCountry
  rw [if_neg]
  rw [h]
  exact Bool.false_ne_true

theorem normCity_of_not_quote (e : CsvData) (h : hasQuote e.city = false) :
    normCity e = e := by
  unfold normCity
  rw [if_neg]
  rw [h]
  exact Bool.false_ne_true

theorem normCountry_of_quote (e : CsvData) (h : hasQuote e.country = true) :
    (normCountry e).country = squote e.country := by
  unfold normCountry
  rw [if_pos h]

theorem normCity_of_quote (e : CsvData) (h : hasQuote e.city = true) :
    (normCity e).city = squote e.city := by
  unfold normCity
  rw [if_pos h]

theorem parseDecTail_den_pos (sgn : Int) (cs : List Char) (n : Int) (dn : Nat)
    (h : parseDecTail sgn cs = some (n, dn)) : 0 < dn := by
  simp only [parseDecTail] at h
  split at h
  · exact absurd h (by simp)
  · split at h
    · obtain ⟨-, hdn⟩ := Prod.mk.injEq .. ▸ Option.some.injEq .. ▸ h
      exact hdn ▸ pow_pos (by norm_num) _
    · split at h
      · split at h
        · exact absurd h (by simp)
        · split at h
          · obtain ⟨-, hdn⟩ := Prod.mk.injEq .. ▸ Option.some.injEq .. ▸ h
            exact hdn ▸ pow_pos (by norm_num) _
          · obtain ⟨-, hdn⟩ := Prod.mk.injEq .. ▸ Option.some.injEq .. ▸ h
            exact hdn ▸ mul_pos (pow_pos (by norm_num) _) (pow_pos (by norm_num) _)
      · exact absurd h (by simp)

theorem parseHexTail_den_pos (sgn : Int) (cs : List Char) (n : Int) (dn : Nat)
    (h : parseHexTail sgn cs = some (n, dn)) : 0 < dn := by
  simp only [parseHexTail] at h
  split at h
  · exact absurd h (by simp)
  · split at h
    · split at h
      · split at h
        · exact absurd h (by simp)
        · split at h
          · obtain ⟨-, hdn⟩ := Prod.mk.injEq .. ▸ Option.some.injEq .. ▸ h
            exact hdn ▸ pow_pos (by norm_num) _
          · obtain ⟨-, hdn⟩ := Prod.mk.injEq .. ▸ Option.some.injEq .. ▸ h
            exact hdn ▸ mul_pos (pow_pos (by norm_num) _) (pow_pos (by norm_num) _)
      · exact absurd h (by simp)
    · exact absurd h (by simp)

theorem parseFloat?_den_pos (s : String) (n : Int) (dn : Nat)
    (h : parseFloat? s = some (n, dn)) : 0 < dn := by
  unfold parseFloat? at h
  split at h
  · split at h
    · exact parseHexTail_den_pos _ _ _ _ h
    · exact parseDecTail_den_pos _ _ _ _ h
  · exact parseDecTail_den_pos _ _ _ _ h

theorem read_ok_length (header : Option (List String)) (rows : List RawRow) (t : Int)
    (h : (read header rows).result = .ok t) : t = (rows.length : Int) := by
  cases header with
  | none => simp [read] at h
  | some hd =>
    simp only [read] at h
    by_cases h1 : hd.length ≠ csvHeader.length
    · rw [if_pos h1] at h; exact absurd h (by simp)
    · rw [if_neg h1] at h
      by_cases h2 : headerFieldsMatch hd = false
      · rw [if_pos h2] at h; exact absurd h (by simp)
      · rw [if_neg h2] at h
        simpa using h.symm

/-! ## Claims -/

/-- C1: for every import that completes without a fatal error, the
returned result satisfies `acceptedRows + discardedRows = totalDataRows`,
where the total counts every data row read (header excluded, malformed
rows — the `none` entries — included). -/
theorem c1_accepted_plus_discarded (ext : String) (header : Option (List String))
    (rows : List RawRow) (insertedRows : Int) (r : ResultR)
    (h : importCSV ext header rows insertedRows = .ok r) :
    r.acceptedRows + r.discardedRows = (rows.length : Int) := by
  unfold importCSV at h
  by_cases he : ext ≠ ".csv"
  · rw [if_pos he] at h; exact absurd h (by simp)
  · rw [if_neg he] at h
    cases hr : (read header rows).result with
    | error e => rw [hr] at h; exact absurd h (by simp)
    | ok total =>
      rw [hr] at h
      have htot : total = (rows.length : Int) := read_ok_length header rows total hr
      have hres : r = mkImportResult total insertedRows := by
        have := h
        simp only [Except.ok.injEq] at this
        exact this.symm
      subst hres
      unfold mkImportResult
      simp [htot]

theorem c1_witness :
    importCSV ".csv" (some csvHeader)
      [some ⟨"1.2.3.4", "AB", "x", "y", "0", "0", "1"⟩, none] 1 = .ok ⟨1, 1⟩ ∧
    (⟨1, 1⟩ : ResultR).acceptedRows + (⟨1, 1⟩ : ResultR).discardedRows
      = (([some ⟨"1.2.3.4", "AB", "x", "y", "0", "0", "1"⟩, none] : List RawRow).length : Int) :=
  ⟨by rfl,
   c1_accepted_plus_discarded ".csv" (some csvHeader)
     [some ⟨"1.2.3.4", "AB", "x", "y", "0", "0", "1"⟩, none] 1 ⟨1, 1⟩ (by rfl)⟩

/-- C2 counterexample: `sanitizeCSV` with concurrency hint 0 starts no
workers and its unbuffered channel can never accept a send, so on a file
with one data row the reader blocks forever (`none`), whereas hint 1
terminates with counts `(1, 1)` — the call with hint 0 is not treated as
hint 1. -/
theorem c2_hint_zero_differs :
    sanitizeCSVModel [["1.2.3.4", "AB", "x", "y", "0", "0", "1"]] 0 = none ∧
    sanitizeCSVModel [["1.2.3.4", "AB", "x", "y", "0", "0", "1"]] 1 = some (1, 1) := by
  constructor
  · decide
  · decide

/-- C2 amended: `ImportCSV` passes the hint through unchanged; for every
positive hint the pipeline terminates with row counts equal to those of
hint 1, while hint 0 terminates only on an input with no data rows (and
then also agrees with hint 1). -/
theorem c2_positive_hint_like_one (rows : List (List String)) (c : Nat) (h : 0 < c) :
    sanitizeCSVModel rows c = sanitizeCSVModel rows 1 ∧
    (rows = [] → sanitizeCSVModel rows 0 = sanitizeCSVModel rows 1) := by
  constructor
  · unfold sanitizeCSVModel completableSends
    have hc : c ≠ 0 := Nat.pos_iff_ne_zero.mp h
    simp [hc]
  · intro hrows
    subst hrows
    rfl

theorem c2_witness :
    0 < 2 ∧
    (sanitizeCSVModel [["1.2.3.4", "AB", "x", "y", "0", "0", "1"],
        ["bad", "AB", "x", "y", "0", "0", "1"]] 2
      = sanitizeCSVModel [["1.2.3.4", "AB", "x", "y", "0", "0", "1"],
        ["bad", "AB", "x", "y", "0", "0", "1"]] 1 ∧
     ([["1.2.3.4", "AB", "x", "y", "0", "0", "1"],
        ["bad", "AB", "x", "y", "0", "0", "1"]] = ([] : List (List String)) →
      sanitizeCSVModel [["1.2.3.4", "AB", "x", "y", "0", "0", "1"],
        ["bad", "AB", "x", "y", "0", "0", "1"]] 0
        = sanitizeCSVModel [["1.2.3.4", "AB", "x", "y", "0", "0", "1"],
        ["bad", "AB", "x", "y", "0", "0", "1"]] 1)) :=
  ⟨by decide,
   c2_positive_hint_like_one
     [["1.2.3.4", "AB", "x", "y", "0", "0", "1"], ["bad", "AB", "x", "y", "0", "0", "1"]]
     2 (by decide)⟩

/-- C3 counterexample: the reader's fixed expected header is
`ip_address, ..., mystery_value` (`csv.go:37`), not
`address, ..., auxiliary_value` as the claim states: a file whose header
is the claim's literal is rejected with a fatal error, while the code's
literal is accepted. -/
theorem c3_spec_header_rejected :
    (read (some specHeader) [some ⟨"1.2.3.4", "AB", "x", "y", "0", "0", "1"⟩]).result
      = .error "invalid csv header" ∧
    (read (some csvHeader) []).result = .ok 0 ∧
    specHeader ≠ csvHeader := by
  refine ⟨rfl, rfl, by decide⟩

/-- C3 amended: the reader consumes exactly one header line and compares
it field-by-field against the fixed expected header
`ip_address, country_code, country, city, latitude, longitude,
mystery_value`; any length or content mismatch (and an absent header)
is a fatal error before any data row is processed or published, while
the matching header lets every data row be counted. -/
theorem c3_header_mismatch_fatal (hd : List String) (rows : List RawRow)
    (h : hd ≠ csvHeader) :
    (read (some hd) rows).result = .error "invalid csv header" ∧
    (read (some hd) rows).published = [] ∧
    (read none rows).result = .error "error reading csv header" ∧
    (read none rows).published = [] ∧
    (read (some csvHeader) rows).result = .ok (rows.length : Int) := by
  refine ⟨?_, ?_, rfl, rfl, ?_⟩
  · simp only [read]
    by_cases h1 : hd.length ≠ csvHeader.length
    · rw [if_pos h1]
    · rw [if_neg h1]
      have h2 : headerFieldsMatch hd = false := by
        cases hb : headerFieldsMatch hd
        · rfl
        · exact absurd ((headerFieldsMatch_iff hd (not_ne_iff.mp h1)).mp hb) h
      rw [if_pos h2]
  · simp only [read]
    by_cases h1 : hd.length ≠ csvHeader.length
    · rw [if_pos h1]
    · rw [if_neg h1]
      have h2 : headerFieldsMatch hd = false := by
        cases hb : headerFieldsMatch hd
        · rfl
        · exact absurd ((headerFieldsMatch_iff hd (not_ne_iff.mp h1)).mp hb) h
      rw [if_pos h2]
  · simp only [read]
    rw [if_neg (by simp), if_neg (by decide)]

theorem c3_witness :
    specHeader ≠ csvHeader ∧
    ((read (some specHeader) [none]).result = .error "invalid csv header" ∧
     (read (some specHeader) [none]).published = [] ∧
     (read none [none]).result = .error "error reading csv header" ∧
     (read none [none]).published = [] ∧
     (read (some csvHeader) [none]).result = .ok (([none] : List RawRow).length : Int)) :=
  ⟨by decide, c3_header_mismatch_fatal specHeader [none] (by decide)⟩

/-- C4: `sanitize` applies the field checks in the fixed order address,
country code, country text, city text, latitude, longitude, auxiliary,
short-circuiting on the first failure, so its error is exactly the first
failing check's rejection reason. -/
theorem c4_first_failure (d : CsvData) : (sanitize d).1 = firstFailure d := by
  unfold firstFailure specCheckOrder
  by_cases h1 : ipv4Ok d.ipAddress = false
  · simp [sanitize, firstSome, h1]
  · replace h1 : ipv4Ok d.ipAddress = true := by simpa using h1
    by_cases h2 : countryCodeMatch d.countryCode = false
    · simp [sanitize, firstSome, h1, h2]
    · replace h2 : countryCodeMatch d.countryCode = true := by simpa using h2
      by_cases h3 : sqlPatternMatch d.country = true
      · simp [sanitize, firstSome, h1, h2, h3]
      · replace h3 : sqlPatternMatch d.country = false := by simpa using h3
        by_cases h4 : sqlPatternMatch d.city = true
        · simp [sanitize, firstSome, h1, h2, h3, h4]
        · replace h4 : sqlPatternMatch d.city = false := by simpa using h4
          by_cases h5 : validateLat d.latitude = false
          · simp [sanitize, firstSome, h1, h2, h3, h4, h5]
          · replace h5 : validateLat d.latitude = true := by simpa using h5
            by_cases h6 : validateLng d.longitude = false
            · simp [sanitize, firstSome, h1, h2, h3, h4, h5, h6]
            · replace h6 : validateLng d.longitude = true := by simpa using h6
              cases h7 : parseInt64? d.mysteryValue <;>
                simp [sanitize, firstSome, h1, h2, h3, h4, h5, h6, h7]

/-- C5 counterexample: the country/city validation of the current
sanitizer (`csv.go`) does not reject the whole word AND: a record whose
country is exactly "AND" is accepted unchanged.  "AND" is a maximal
word chunk of itself, the superseded `geo.go` denylist does match it,
and the `csv.go` denylist does not. -/
theorem c5_and_not_rejected :
    sanitize ⟨"1.2.3.4", "AB", "AND", "x", "0", "0", "1"⟩
      = (none, ⟨"1.2.3.4", "AB", "AND", "x", "0", "0", "1"⟩) ∧
    wordChunks (String.toList "AND") = [String.toList "AND"] ∧
    sqlPatternMatchGeo "AND" = true ∧
    sqlPatternMatch "AND" = false := by
  refine ⟨by decide, by decide, by decide, by decide⟩

/-- C5 amended: for every record passing the address and country-code
checks, `sanitize` rejects with reason "invalid country" exactly when the
country text contains, case-insensitively as a whole word, a token of the
denylist SELECT, INSERT, UPDATE, DELETE, UNION, OR, DROP, EXEC, EXECUTE,
ALTER, CREATE, TRUNCATE — a denylist that does not contain AND. -/
theorem c5_denylist_rejects (d : CsvData)
    (h1 : ipv4Ok d.ipAddress = true) (h2 : countryCodeMatch d.countryCode = true) :
    ((sanitize d).1 = some "invalid country" ↔ sqlPatternMatch d.country = true) ∧
    sqlKeywords.contains (String.toList "AND") = false := by
  refine ⟨?_, by decide⟩
  by_cases h3 : sqlPatternMatch d.country = true
  · simp [sanitize, h1, h2, h3]
  · replace h3 : sqlPatternMatch d.country = false := by simpa using h3
    by_cases h4 : sqlPatternMatch d.city = true
    · simp [sanitize, h1, h2, h3, h4]
    · replace h4 : sqlPatternMatch d.city = false := by simpa using h4
      by_cases h5 : validateLat d.latitude = false
      · simp [sanitize, h1, h2, h3, h4, h5]
      · replace h5 : validateLat d.latitude = true := by simpa using h5
        by_cases h6 : validateLng d.longitude = false
        · simp [sanitize, h1, h2, h3, h4, h5, h6]
        · replace h6 : validateLng d.longitude = true := by simpa using h6
          cases h7 : parseInt64? d.mysteryValue <;>
            simp [sanitize, h1, h2, h3, h4, h5, h6, h7]

theorem c5_witness :
    ipv4Ok "1.2.3.4" = true ∧ countryCodeMatch "AB" = true ∧
    (((sanitize ⟨"1.2.3.4", "AB", "drop table", "x", "0", "0", "1"⟩).1
        = some "invalid country" ↔ sqlPatternMatch "drop table" = true) ∧
     sqlKeywords.contains (String.toList "AND") = false) :=
  ⟨by decide, by decide,
   c5_denylist_rejects ⟨"1.2.3.4", "AB", "drop table", "x", "0", "0", "1"⟩
     (by decide) (by decide)⟩

/-- C6 counterexample: rejection is not atomic.  A record whose country
contains a quote and whose city matches the denylist is rejected with
"invalid city", yet its country field has already been rewritten by the
quote normalization, so the rejected record is not left unchanged. -/
theorem c6_rejection_mutates :
    (sanitize ⟨"1.2.3.4", "AB", String.mk ['a', quoteChar, 'b'], "drop it",
        "0", "0", "1"⟩).1 = some "invalid city" ∧
    (sanitize ⟨"1.2.3.4", "AB", String.mk ['a', quoteChar, 'b'], "drop it",
        "0", "0", "1"⟩).2.country ≠ String.mk ['a', quoteChar, 'b'] := by
  refine ⟨by decide, by decide⟩

/-- C6 amended: the outcome is exclusive (an error or acceptance, never
both), the five non-text fields are never modified, the country and city
fields are modified only by quote normalization — applied as soon as the
respective text check passes, so a rejection at a later check can leave
an earlier field already normalized — and full normalization of both
fields is exactly the successful outcome. -/
theorem c6_partial_normalization (d : CsvData) :
    ((sanitize d).2.ipAddress = d.ipAddress ∧
     (sanitize d).2.countryCode = d.countryCode ∧
     (sanitize d).2.latitude = d.latitude ∧
     (sanitize d).2.longitude = d.longitude ∧
     (sanitize d).2.mysteryValue = d.mysteryValue) ∧
    ((sanitize d).2.country = d.country ∨ (sanitize d).2.country = squote d.country) ∧
    ((sanitize d).2.city = d.city ∨ (sanitize d).2.city = squote d.city) ∧
    ((sanitize d).1 = none → (sanitize d).2 = normCity (normCountry d)) := by
  unfold sanitize
  split_ifs with h1 h2 h3 h4 h5 h6 h7
  · simp
  · simp
  · simp
  · exact ⟨⟨normCountry_ipAddress d, normCountry_countryCode d, normCountry_latitude d,
      normCountry_longitude d, normCountry_mysteryValue d⟩,
      normCountry_country_or d, Or.inl (normCountry_city d), by simp⟩
  · refine ⟨⟨(normCity_ipAddress _).trans (normCountry_ipAddress d),
      (normCity_countryCode _).trans (normCountry_countryCode d),
      (normCity_latitude _).trans (normCountry_latitude d),
      (normCity_longitude _).trans (normCountry_longitude d),
      (normCity_mysteryValue _).trans (normCountry_mysteryValue d)⟩, ?_, ?_, by simp⟩
    · rw [normCity_country]; exact normCountry_country_or d
    · have hcy := normCity_city_or (normCountry d)
      rwa [normCountry_city] at hcy
  · refine ⟨⟨(normCity_ipAddress _).trans (normCountry_ipAddress d),
      (normCity_countryCode _).trans (normCountry_countryCode d),
      (normCity_latitude _).trans (normCountry_latitude d),
      (normCity_longitude _).trans (normCountry_longitude d),
      (normCity_mysteryValue _).trans (normCountry_mysteryValue d)⟩, ?_, ?_, by simp⟩
    · rw [normCity_country]; exact normCountry_country_or d
    · have hcy := normCity_city_or (normCountry d)
      rwa [normCountry_city] at hcy
  · refine ⟨⟨(normCity_ipAddress _).trans (normCountry_ipAddress d),
      (normCity_countryCode _).trans (normCountry_countryCode d),
      (normCity_latitude _).trans (normCountry_latitude d),
      (normCity_longitude _).trans (normCountry_longitude d),
      (normCity_mysteryValue _).trans (normCountry_mysteryValue d)⟩, ?_, ?_, by simp⟩
    · rw [normCity_country]; exact normCountry_country_or d
    · have hcy := normCity_city_or (normCountry d)
      rwa [normCountry_city] at hcy
  · refine ⟨⟨(normCity_ipAddress _).trans (normCountry_ipAddress d),
      (normCity_countryCode _).trans (normCountry_countryCode d),
      (normCity_latitude _).trans (normCountry_latitude d),
      (normCity_longitude _).trans (normCountry_longitude d),
      (normCity_mysteryValue _).trans (normCountry_mysteryValue d)⟩, ?_, ?_, fun _ => rfl⟩
    · rw [normCity_country]; exact normCountry_country_or d
    · have hcy := normCity_city_or (normCountry d)
      rwa [normCountry_city] at hcy

theorem c6_witness :
    ((sanitize ⟨"1.2.3.4", "AB", "x", "y", "0", "0", "1"⟩).2.ipAddress = "1.2.3.4" ∧
     (sanitize ⟨"1.2.3.4", "AB", "x", "y", "0", "0", "1"⟩).2.countryCode = "AB" ∧
     (sanitize ⟨"1.2.3.4", "AB", "x", "y", "0", "0", "1"⟩).2.latitude = "0" ∧
     (sanitize ⟨"1.2.3.4", "AB", "x", "y", "0", "0", "1"⟩).2.longitude = "0" ∧
     (sanitize ⟨"1.2.3.4", "AB", "x", "y", "0", "0", "1"⟩).2.mysteryValue = "1") ∧
    ((sanitize ⟨"1.2.3.4", "AB", "x", "y", "0", "0", "1"⟩).2.country = "x" ∨
     (sanitize ⟨"1.2.3.4", "AB", "x", "y", "0", "0", "1"⟩).2.country = squote "x") ∧
    ((sanitize ⟨"1.2.3.4", "AB", "x", "y", "0", "0", "1"⟩).2.city = "y" ∨
     (sanitize ⟨"1.2.3.4", "AB", "x", "y", "0", "0", "1"⟩).2.city = squote "y") ∧
    ((sanitize ⟨"1.2.3.4", "AB", "x", "y", "0", "0", "1"⟩).1 = none →
     (sanitize ⟨"1.2.3.4", "AB", "x", "y", "0", "0", "1"⟩).2
       = normCity (normCountry ⟨"1.2.3.4", "AB", "x", "y", "0", "0", "1"⟩)) :=
  c6_partial_normalization ⟨"1.2.3.4", "AB", "x", "y", "0", "0", "1"⟩

/-- C7 counterexample: the latitude/longitude validation does not accept
only base-10 numerals: `strconv.ParseFloat` also accepts Go hexadecimal
floating-point literals, so the string "0x5Ap0" (value 90) is accepted
by both validators although it does not parse as a base-10 floating
point number. -/
theorem c7_hex_accepted :
    validateLat "0x5Ap0" = true ∧ validateLng "0x5Ap0" = true ∧
    specBase10Float? "0x5Ap0" = none := by
  refine ⟨by decide, by decide, by decide⟩

/-- C7 amended: the validators accept exactly the strings accepted by
`strconv.ParseFloat` (decimal or hexadecimal float syntax) whose exact
value `n / d` lies in [-90, 90] (latitude) resp. [-180, 180]
(longitude), both inclusive; in particular "90", "-90" are accepted and
"90.0000001" rejected, "180", "-180" accepted and "180.0000001"
rejected, and strings that do not parse are rejected. -/
theorem c7_range_boundaries (s : String) (n : Int) (d : Nat)
    (h : parseFloat? s = some (n, d)) :
    (validateLat s = true ↔ -90 ≤ (n : ℚ) / (d : ℚ) ∧ (n : ℚ) / (d : ℚ) ≤ 90) ∧
    (validateLng s = true ↔ -180 ≤ (n : ℚ) / (d : ℚ) ∧ (n : ℚ) / (d : ℚ) ≤ 180) ∧
    validateLat "90" = true ∧ validateLat "-90" = true ∧
    validateLat "90.0000001" = false ∧
    validateLng "180" = true ∧ validateLng "-180" = true ∧
    validateLng "180.0000001" = false ∧
    (∀ t, parseFloat? t = none → validateLat t = false ∧ validateLng t = false) := by
  have hd := parseFloat?_den_pos s n d h
  have hdq : (0 : ℚ) < (d : ℚ) := by exact_mod_cast hd
  refine ⟨?_, ?_, by decide, by decide, by decide, by decide, by decide, by decide, ?_⟩
  · unfold validateLat
    rw [h]
    simp only [decide_eq_true_eq]
    rw [le_div_iff₀ hdq, div_le_iff₀ hdq]
    constructor
    · intro hx
      exact ⟨by exact_mod_cast hx.1, by exact_mod_cast hx.2⟩
    · intro hx
      exact ⟨by exact_mod_cast hx.1, by exact_mod_cast hx.2⟩
  · unfold validateLng
    rw [h]
    simp only [decide_eq_true_eq]
    rw [le_div_iff₀ hdq, div_le_iff₀ hdq]
    constructor
    · intro hx
      exact ⟨by exact_mod_cast hx.1, by exact_mod_cast hx.2⟩
    · intro hx
      exact ⟨by exact_mod_cast hx.1, by exact_mod_cast hx.2⟩
  · intro t ht
    constructor
    · unfold validateLat; rw [ht]
    · unfold validateLng; rw [ht]

theorem c7_witness :
    parseFloat? "45.5" = some (455, 10) ∧
    ((validateLat "45.5" = true ↔
        -90 ≤ (455 : ℚ) / (10 : ℚ) ∧ (455 : ℚ) / (10 : ℚ) ≤ 90) ∧
     (validateLng "45.5" = true ↔
        -180 ≤ (455 : ℚ) / (10 : ℚ) ∧ (455 : ℚ) / (10 : ℚ) ≤ 180) ∧
     validateLat "90" = true ∧ validateLat "-90" = true ∧
     validateLat "90.0000001" = false ∧
     validateLng "180" = true ∧ validateLng "-180" = true ∧
     validateLng "180.0000001" = false ∧
     (∀ t, parseFloat? t = none → validateLat t = false ∧ validateLng t = false)) :=
  ⟨by decide, c7_range_boundaries "45.5" 455 10 (by decide)⟩

/-- C8 counterexample: the auxiliary (mystery value) validation does
enforce a range: `strconv.ParseInt(s, 10, 64)` rejects the base-10
numeral 9223372036854775808 = 2^63 because it does not fit in a signed
64-bit integer, and `sanitize` rejects a record carrying it. -/
theorem c8_int64_range_enforced :
    specBase10Int? "9223372036854775808" = some (2 ^ 63) ∧
    parseInt64? "9223372036854775808" = none ∧
    (sanitize ⟨"1.2.3.4", "AB", "x", "y", "0", "0", "9223372036854775808"⟩).1
      = some "invalid mystery value" := by
  refine ⟨by decide, by decide, by decide⟩

/-- C8 amended: the auxiliary validation accepts exactly the strings
that parse as a base-10 integer with optional sign whose value fits in a
signed 64-bit integer, [-2^63, 2^63 - 1]; "2147483647" is accepted and
"21474ff83647" rejected. -/
theorem c8_mystery_parse :
    (∀ s, (parseInt64? s).isSome = true ↔
       ∃ n, specBase10Int? s = some n ∧ -(2 ^ 63) ≤ n ∧ n ≤ 2 ^ 63 - 1) ∧
    (parseInt64? "2147483647").isSome = true ∧
    (parseInt64? "21474ff83647").isSome = false := by
  refine ⟨?_, by decide, by decide⟩
  intro s
  unfold parseInt64? specBase10Int?
  cases hp : decDigitsVal? (splitSign s.toList).2 with
  | none => simp
  | some m =>
    dsimp only
    by_cases hr : -(2 ^ 63) ≤ (splitSign s.toList).1 * (m : Int) ∧
        (splitSign s.toList).1 * (m : Int) ≤ 2 ^ 63 - 1
    · rw [if_pos hr]
      constructor
      · intro _
        exact ⟨_, rfl, hr.1, hr.2⟩
      · intro _
        rfl
    · rw [if_neg hr]
      constructor
      · intro hfalse
        exact absurd hfalse (by simp)
      · rintro ⟨n, hn, hb1, hb2⟩
        have hmn : (splitSign s.toList).1 * (m : Int) = n := Option.some.inj hn
        rw [← hmn] at hb1 hb2
        exact absurd ⟨hb1, hb2⟩ hr

/-- C9: `sanitize` re-run on the record produced by a successful
`sanitize` accepts again and returns the same record, except that a
country or city containing a quote character is wrapped in one more
layer of quotes on each run. -/
theorem c9_idempotent_mod_quotes (d d₁ : CsvData) (h : sanitize d = (none, d₁)) :
    sanitize d₁ = (none, normCity (normCountry d₁)) ∧
    (hasQuote d₁.country = false → hasQuote d₁.city = false →
      (sanitize d₁).2 = d₁) ∧
    (hasQuote d₁.country = true → (sanitize d₁).2.country = squote d₁.country) ∧
    (hasQuote d₁.city = true → (sanitize d₁).2.city = squote d₁.city) := by
  unfold sanitize at h
  split_ifs at h with h1 h2 h3 h4 h5 h6 h7
  · exact absurd (congrArg Prod.fst h) (by simp)
  · exact absurd (congrArg Prod.fst h) (by simp)
  · exact absurd (congrArg Prod.fst h) (by simp)
  · exact absurd (congrArg Prod.fst h) (by simp)
  · exact absurd (congrArg Prod.fst h) (by simp)
  · exact absurd (congrArg Prod.fst h) (by simp)
  · exact absurd (congrArg Prod.fst h) (by simp)
  · have hD : normCity (normCountry d) = d₁ := congrArg Prod.snd h
    subst hD
    have hip : ipv4Ok (normCity (normCountry d)).ipAddress = true := by
      rw [normCity_ipAddress, normCountry_ipAddress]; simpa using h1
    have hcc : countryCodeMatch (normCity (normCountry d)).countryCode = true := by
      rw [normCity_countryCode, normCountry_countryCode]; simpa using h2
    have hco : sqlPatternMatch (normCity (normCountry d)).country = false := by
      rw [normCity_country, sql_normCountry]; simpa using h3
    have hci : sqlPatternMatch (normCity (normCountry d)).city = false := by
      rw [sql_normCity, normCountry_city]; simpa using h4
    have hla : validateLat (normCity (normCountry d)).latitude = true := by
      rw [normCity_latitude, normCountry_latitude]; simpa using h5
    have hln : validateLng (normCity (normCountry d)).longitude = true := by
      rw [normCity_longitude, normCountry_longitude]; simpa using h6
    rw [Bool.not_eq_true] at h7
    have hmy : (parseInt64? (normCity (normCountry d)).mysteryValue).isNone = false := by
      rw [normCity_mysteryValue, normCountry_mysteryValue]; exact h7
    have hrun : sanitize (normCity (normCountry d))
        = (none, normCity (normCountry (normCity (normCountry d)))) := by
      unfold sanitize
      simp [hip, hcc, hco, hci, hla, hln, hmy]
    refine ⟨hrun, ?_, ?_, ?_⟩
    · intro hqc hqci
      rw [hrun]
      show normCity (normCountry (normCity (normCountry d))) = normCity (normCountry d)
      rw [normCountry_of_not_quote _ hqc, normCity_of_not_quote _ hqci]
    · intro hqc
      rw [hrun]
      show (normCity (normCountry (normCity (normCountry d)))).country
        = squote (normCity (normCountry d)).country
      rw [normCity_country, normCountry_of_quote _ hqc]
    · intro hqci
      rw [hrun]
      show (normCity (normCountry (normCity (normCountry d)))).city
        = squote (normCity (normCountry d)).city
      rw [normCity_of_quote (normCountry (normCity (normCountry d)))
            (by rwa [normCountry_city]), normCountry_city]

theorem c9_witness :
    sanitize ⟨"1.2.3.4", "AB", String.mk ['i', 't', quoteChar, 's'], "x", "0", "0", "1"⟩
      = (none, ⟨"1.2.3.4", "AB",
          String.mk [quoteChar, 'i', 't', quoteChar, 's', quoteChar], "x", "0", "0", "1"⟩) ∧
    (sanitize ⟨"1.2.3.4", "AB",
        String.mk [quoteChar, 'i', 't', quoteChar, 's', quoteChar], "x", "0", "0", "1"⟩
      = (none, normCity (normCountry ⟨"1.2.3.4", "AB",
          String.mk [quoteChar, 'i', 't', quoteChar, 's', quoteChar], "x", "0", "0", "1"⟩)) ∧
     (hasQuote (String.mk [quoteChar, 'i', 't', quoteChar, 's', quoteChar]) = false →
      hasQuote "x" = false →
      (sanitize ⟨"1.2.3.4", "AB",
          String.mk [quoteChar, 'i', 't', quoteChar, 's', quoteChar], "x", "0", "0", "1"⟩).2
        = ⟨"1.2.3.4", "AB",
            String.mk [quoteChar, 'i', 't', quoteChar, 's', quoteChar], "x", "0", "0", "1"⟩) ∧
     (hasQuote (String.mk [quoteChar, 'i', 't', quoteChar, 's', quoteChar]) = true →
      (sanitize ⟨"1.2.3.4", "AB",
          String.mk [quoteChar, 'i', 't', quoteChar, 's', quoteChar], "x", "0", "0", "1"⟩).2.country
        = squote (String.mk [quoteChar, 'i', 't', quoteChar, 's', quoteChar])) ∧
     (hasQuote "x" = true →
      (sanitize ⟨"1.2.3.4", "AB",
          String.mk [quoteChar, 'i', 't', quoteChar, 's', quoteChar], "x", "0", "0", "1"⟩).2.city
        = squote "x")) :=
  ⟨by decide,
   c9_idempotent_mod_quotes
     ⟨"1.2.3.4", "AB", String.mk ['i', 't', quoteChar, 's'], "x", "0", "0", "1"⟩
     ⟨"1.2.3.4", "AB",
        String.mk [quoteChar, 'i', 't', quoteChar, 's', quoteChar], "x", "0", "0", "1"⟩
     (by decide)⟩

/-- C10: the staging goroutine of `setUpSanitizer` sends exactly one
value on the signal channel, and it does so after all worker exits but
BEFORE the deferred `writer.Flush()` and `file.Close()` run — the
staging file is not yet flushed and closed at the moment the loader is
unblocked, contradicting the claimed ordering (and the expectation of
the repo's own `TestCSV_setUpSanitizer_Success`, which reads the staging
file immediately after receiving the signal). -/
theorem c10_signal_before_flush (n : Nat) :
    (setUpSanitizerTrace n).count .signalSend = 1 ∧
    (setUpSanitizerTrace n).take n = List.replicate n .workerExit ∧
    (setUpSanitizerTrace n).drop n = [.signalSend, .writerFlush, .fileClose] := by
  refine ⟨?_, ?_, ?_⟩
  · unfold setUpSanitizerTrace
    rw [List.count_append, List.count_replicate]
    rfl
  · unfold setUpSanitizerTrace
    exact List.take_left' (List.length_replicate _ _)
  · unfold setUpSanitizerTrace
    exact List.drop_left' (List.length_replicate _ _)

end Geoolocation
